import Mathlib

/-!
Shallow embedding of the `my-rusty-computer` 8086 toolchain cores:
the instruction data model (`crates/mrc_x86/src/lib.rs`), the ModR/M
codec and instruction decoder (`crates/mrc_decoder/src/{modrm,decode}.rs`),
the emulator flag primitives (`bins/mrc_emu/src/cpu/operations/mod.rs`),
the disassembler section walker (`bins/mrc_dis/src/main.rs`) and the
assembler AST (`crates/mrc_compiler/src/ast.rs`).

Machine integers are embedded as `Nat` (u8 values are < 256, u16 values
are < 65536 where it matters; Rust `as` casts are made explicit).
Byte streams are `List Nat`; every stream-consuming function returns the
remaining stream alongside its `Except` result, so that the number of
bytes consumed is observable (including on the error path, which is what
the disassembler's resumption behaviour depends on).
-/

namespace MrcX86

/-- Operation: closed enumeration of the 8086 mnemonics, from
`crates/mrc_x86/src/lib.rs`. -/
inductive Operation where
  | Mov | Push | Pop | Xchg | In | Out | Xlat | Lea | Lds | Les | Lahf | Sahf
  | Pushf | Popf
  | Add | Adc | Inc | Aaa | Baa | Sub | Sbb | Dec | Neg | Cmp | Aas | Das
  | Mul | Imul | Aam | Div | Idiv | Aad | Cbw | Cwd
  | Not | Shl | Shr | Sar | Rol | Ror | Rcl | Rcr | And | Test | Or | Xor
  | Cmpsb | Cmpsw | Lodsb | Lodsw | Movsb | Movsw | Scasb | Scasw | Stosb | Stosw
  | Call | Jmp | Ret | Je | Jl | Jle | Jb | Jbe | Jp | Jo | Js
  | Jne | Jnl | Jnle | Jnb | Jnbe | Jnp | Jno | Jns
  | Loop | Loopz | Loopnz | Jcxz | Int | Into | IRet
  | Clc | Cmc | Stc | Cld | Std | Cli | Sti | Hlt | Wait | Esc | Lock
deriving DecidableEq, Repr

/-- Register: the eight 3-bit register slots (interpreted as byte or word
registers depending on the `w` bit), from `crates/mrc_x86/src/lib.rs`. -/
inductive Register where
  | AlAx | ClCx | DlDx | BlBx | AhSp | ChBp | DhSi | BhDi
deriving DecidableEq, Repr

/-- Segment registers, from `crates/mrc_x86/src/lib.rs`. -/
inductive Segment where
  | Es | Cs | Ss | Ds
deriving DecidableEq, Repr

/-- AddressingMode: the eight r/m memory addressing modes, from
`crates/mrc_x86/src/lib.rs`. -/
inductive AddressingMode where
  | BxSi | BxDi | BpSi | BpDi | Si | Di | Bp | Bx
deriving DecidableEq, Repr

/-- OperandSize, from `crates/mrc_x86/src/lib.rs`. -/
inductive OperandSize where
  | Byte | Word
deriving DecidableEq, Repr

/-- OperandType, from `crates/mrc_x86/src/lib.rs`.  Displacements,
direct offsets and immediates are u16 values embedded as `Nat`. -/
inductive OperandType where
  | Direct (offset : Nat)
  | Indirect (mode : AddressingMode) (displacement : Nat)
  | Register (r : Register)
  | Segment (s : Segment)
  | Immediate (value : Nat)
deriving DecidableEq, Repr

/-- Operand: an operand type paired with its size, from
`crates/mrc_x86/src/lib.rs` (`pub struct Operand(OperandType, OperandSize)`). -/
structure Operand where
  type : OperandType
  size : OperandSize
deriving DecidableEq, Repr

/-- OperandSet, from `crates/mrc_x86/src/lib.rs`. -/
inductive OperandSet where
  | None
  | Destination (dst : Operand)
  | DestinationAndSource (dst src : Operand)
  | Offset (offset : Nat)
  | SegmentAndOffset (segment offset : Nat)
deriving DecidableEq, Repr

/-- Repeat prefix kind, from `crates/mrc_x86/src/lib.rs`. -/
inductive Repeat where
  | Equal | NotEqual
deriving DecidableEq, Repr

/-- Instruction, from `crates/mrc_x86/src/lib.rs`.  The source field name
`repeat` is a Lean keyword, so the field is called `rep` here. -/
structure Instruction where
  operation : Operation
  segment_override : Option Segment
  rep : Option Repeat
  operands : OperandSet
deriving DecidableEq, Repr

/-- Embedding of `Instruction::new`: operation and operands, with no segment override
and no repeat prefix, from `crates/mrc_x86/src/lib.rs`. -/
def Instruction.new (operation : Operation) (operands : OperandSet) : Instruction :=
  ⟨operation, none, none, operands⟩

end MrcX86

namespace MrcDecoder

open MrcX86

/-- Decoder error taxonomy.  `InvalidOpCode`, `InvalidModRmEncoding` and
`InvalidIndirectMemoryEncoding` appear in `crates/mrc_decoder/src/{decode,modrm}.rs`;
the remaining variants are Modelled from the spec: the crate's `errors.rs` /
`lib.rs` are not in the source tree, and the spec's error taxonomy lists
`InvalidRegisterEncoding`, `InvalidAddressingMode`-style encoding errors and
`UnexpectedEof` for stream underflow. -/
inductive Error where
  | InvalidOpCode (byte : Nat)
  | InvalidModRmEncoding (byte : Nat)
  | InvalidIndirectMemoryEncoding (byte : Nat)
  | InvalidRegisterEncoding (byte : Nat)
  | InvalidSegmentEncoding (byte : Nat)
  | InvalidOperandSizeEncoding (byte : Nat)
  | UnexpectedEof
deriving DecidableEq, Repr

/-- Modelled from the spec: `it_read_u8` from the decoder crate's missing
`lib.rs`.  Reads one byte from the stream; the decoder "fails with ...
`UnexpectedEof` when the stream underflows". -/
def it_read_u8 : List Nat → Except Error Nat × List Nat
  | [] => (.error .UnexpectedEof, [])
  | b :: rest => (.ok b, rest)

/-- Modelled from the spec: `it_read_u16` from the decoder crate's missing
`lib.rs`.  Reads two bytes, low byte first ("multi-byte integers are
little-endian on the wire"), underflowing with `UnexpectedEof`. -/
def it_read_u16 : List Nat → Except Error Nat × List Nat
  | [] => (.error .UnexpectedEof, [])
  | [_] => (.error .UnexpectedEof, [])
  | lo :: hi :: rest => (.ok (lo ||| (hi <<< 8)), rest)

/-- Embedding of `AddressingMode::try_from_low_bits`, from `crates/mrc_decoder/src/modrm.rs`:
the 3-bit r/m field mapped to an addressing mode. -/
def AddressingMode.try_from_low_bits (byte : Nat) : Except Error AddressingMode :=
  match byte with
  | 0 => .ok .BxSi
  | 1 => .ok .BxDi
  | 2 => .ok .BpSi
  | 3 => .ok .BpDi
  | 4 => .ok .Si
  | 5 => .ok .Di
  | 6 => .ok .Bp
  | 7 => .ok .Bx
  | _ => .error (.InvalidIndirectMemoryEncoding byte)

/-- Modelled from the spec: `Register::try_from_low_bits` from the decoder
crate's missing `lib.rs` (`register_from_3bits`).  The mapping is corroborated
by `encoding_for_register` in `modrm.rs` and by `RegisterEncoding::try_from_byte`
in the older `src/decoder.rs`. -/
def Register.try_from_low_bits (byte : Nat) : Except Error Register :=
  match byte with
  | 0 => .ok .AlAx
  | 1 => .ok .ClCx
  | 2 => .ok .DlDx
  | 3 => .ok .BlBx
  | 4 => .ok .AhSp
  | 5 => .ok .ChBp
  | 6 => .ok .DhSi
  | 7 => .ok .BhDi
  | _ => .error (.InvalidRegisterEncoding byte)

/-- Modelled from the spec: `Segment::try_from_low_bits` from the decoder
crate's missing `lib.rs` (`segment_from_2bits`; the spec fixes
ES=0, CS=1, SS=2, DS=3). -/
def Segment.try_from_low_bits (byte : Nat) : Except Error Segment :=
  match byte with
  | 0 => .ok .Es
  | 1 => .ok .Cs
  | 2 => .ok .Ss
  | 3 => .ok .Ds
  | _ => .error (.InvalidSegmentEncoding byte)

/-- Modelled from the spec: `OperandSize::try_from_low_bits` from the decoder
crate's missing `lib.rs`: the `w` bit selects Byte (0) or Word (1). -/
def OperandSize.try_from_low_bits (byte : Nat) : Except Error OperandSize :=
  match byte with
  | 0 => .ok .Byte
  | 1 => .ok .Word
  | _ => .error (.InvalidOperandSizeEncoding byte)

/-- RegisterOrMemory, from `crates/mrc_decoder/src/modrm.rs`.  The
`DisplacementByte` payload is a u8, `Direct`/`DisplacementWord` payloads
are u16 values. -/
inductive RegisterOrMemory where
  | Direct (offset : Nat)
  | Indirect (mode : AddressingMode)
  | DisplacementByte (mode : AddressingMode) (displacement : Nat)
  | DisplacementWord (mode : AddressingMode) (displacement : Nat)
  | Register (r : Register)
deriving DecidableEq, Repr

/-- Embedding of `RegisterOrMemory::try_from_modrm`, from `crates/mrc_decoder/src/modrm.rs`:
splits the ModR/M byte into `mod` (top two bits) and `rm` (low three bits) and
reads the displacement bytes dictated by `mod` from the stream. -/
def RegisterOrMemory.try_from_modrm (mod_rm_byte : Nat) (it : List Nat) :
    Except Error RegisterOrMemory × List Nat :=
  match mod_rm_byte >>> 6 with
  | 0 =>
    match mod_rm_byte &&& 7 with
    | 6 =>
      match it_read_u16 it with
      | (.ok offset, it') => (.ok (.Direct offset), it')
      | (.error e, it') => (.error e, it')
    | rm =>
      match AddressingMode.try_from_low_bits rm with
      | .ok mode => (.ok (.Indirect mode), it)
      | .error e => (.error e, it)
  | 1 =>
    match AddressingMode.try_from_low_bits (mod_rm_byte &&& 7) with
    | .ok mode =>
      match it_read_u8 it with
      | (.ok displacement, it') => (.ok (.DisplacementByte mode displacement), it')
      | (.error e, it') => (.error e, it')
    | .error e => (.error e, it)
  | 2 =>
    match AddressingMode.try_from_low_bits (mod_rm_byte &&& 7) with
    | .ok mode =>
      match it_read_u16 it with
      | (.ok displacement, it') => (.ok (.DisplacementWord mode displacement), it')
      | (.error e, it') => (.error e, it')
    | .error e => (.error e, it)
  | 3 =>
    match Register.try_from_low_bits (mod_rm_byte &&& 7) with
    | .ok r => (.ok (.Register r), it)
    | .error e => (.error e, it)
  | _ => (.error (.InvalidModRmEncoding mod_rm_byte), it)

/-- Embedding of `From<RegisterOrMemory> for OperandType`, from
`crates/mrc_decoder/src/modrm.rs`.  In the `DisplacementByte` arm the source
widens the u8 displacement with `displacement as u16`, which in Rust is a
zero-extension, so the numeric value is unchanged. -/
def OperandType.from_register_or_memory : RegisterOrMemory → OperandType
  | .Direct offset => .Direct offset
  | .Indirect mode => .Indirect mode 0
  | .DisplacementByte mode displacement => .Indirect mode displacement
  | .DisplacementWord mode displacement => .Indirect mode displacement
  | .Register r => .Register r

/-- Modrm: a register field paired with a register-or-memory field, from
`crates/mrc_decoder/src/modrm.rs`. -/
structure Modrm where
  register : Register
  register_or_memory : RegisterOrMemory
deriving DecidableEq, Repr

/-- Embedding of `Modrm::try_from_byte`, from `crates/mrc_decoder/src/modrm.rs`: decodes
the reg field (bits 3..5) and the register-or-memory part of a ModR/M byte. -/
def Modrm.try_from_byte (mod_rm_byte : Nat) (it : List Nat) :
    Except Error Modrm × List Nat :=
  match Register.try_from_low_bits ((mod_rm_byte >>> 3) &&& 7) with
  | .error e => (.error e, it)
  | .ok register =>
    match RegisterOrMemory.try_from_modrm mod_rm_byte it with
    | (.ok register_or_memory, it') => (.ok ⟨register, register_or_memory⟩, it')
    | (.error e, it') => (.error e, it')

/-- Embedding of `encoding_for_register`, from `crates/mrc_decoder/src/modrm.rs`. -/
def encoding_for_register : Register → Nat
  | .AlAx => 0
  | .ClCx => 1
  | .DlDx => 2
  | .BlBx => 3
  | .AhSp => 4
  | .ChBp => 5
  | .DhSi => 6
  | .BhDi => 7

/-- Embedding of `encoding_for_addressing_mode`, from `crates/mrc_decoder/src/modrm.rs`. -/
def encoding_for_addressing_mode : AddressingMode → Nat
  | .BxSi => 0
  | .BxDi => 1
  | .BpSi => 2
  | .BpDi => 3
  | .Si => 4
  | .Di => 5
  | .Bp => 6
  | .Bx => 7

/-- Embedding of `From<Modrm> for u8`, from `crates/mrc_decoder/src/modrm.rs`: the mode
bits (with `Direct` and `Indirect` both mapping to mod=00), the register
field shifted into bits 3..5, and the r/m field (with `Direct` mapping to
rm=110). -/
def Modrm.to_byte (modrm : Modrm) : Nat :=
  let byte : Nat :=
    (match modrm.register_or_memory with
      | .Direct _ => 0
      | .Indirect _ => 0
      | .DisplacementByte _ _ => 1
      | .DisplacementWord _ _ => 2
      | .Register _ => 3) <<< 6
  let byte := byte ||| (encoding_for_register modrm.register <<< 3)
  byte |||
    (match modrm.register_or_memory with
      | .Direct _ => 6
      | .Indirect mode => encoding_for_addressing_mode mode
      | .DisplacementByte mode _ => encoding_for_addressing_mode mode
      | .DisplacementWord mode _ => encoding_for_addressing_mode mode
      | .Register r => encoding_for_register r)

/-- Modelled from the spec: `operations::data_transfer::mov::immediate_to_register`
(opcode family `1011 w reg`, "MOV imm to reg"); the `mov.rs` operations module
of the decoder crate is not in the source tree.  The `w` bit (bit 3) selects
the operand size, the low three bits the register, and the immediate follows
(one byte or a little-endian word). -/
def mov_immediate_to_register (op_code : Nat) (it : List Nat) :
    Except Error Instruction × List Nat :=
  match Register.try_from_low_bits (op_code &&& 7) with
  | .error e => (.error e, it)
  | .ok register =>
    match OperandSize.try_from_low_bits ((op_code >>> 3) &&& 1) with
    | .error e => (.error e, it)
    | .ok operand_size =>
      match (match operand_size with
              | .Byte => it_read_u8 it
              | .Word => it_read_u16 it) with
      | (.error e, it') => (.error e, it')
      | (.ok immediate, it') =>
        (.ok (Instruction.new .Mov (.DestinationAndSource
          ⟨.Register register, operand_size⟩
          ⟨.Immediate immediate, operand_size⟩)), it')

/-- Modelled from the spec: the missing `mov.rs` / `add.rs` decoder modules
share this shape for opcode families `cccccc d w` with a ModR/M byte
("Arithmetic reg/mem ↔ reg", "MOV reg/mem ↔ reg"): read the ModR/M byte,
resolve both operands at the size given by `w`, and direct them by `d`
(bit 1; `d`=1 puts the reg field as destination). -/
def register_memory_with_register_to_either (operation : Operation)
    (op_code : Nat) (it : List Nat) : Except Error Instruction × List Nat :=
  match it_read_u8 it with
  | (.error e, it') => (.error e, it')
  | (.ok mod_rm_byte, it') =>
    match OperandSize.try_from_low_bits (op_code &&& 1) with
    | .error e => (.error e, it')
    | .ok operand_size =>
      match Modrm.try_from_byte mod_rm_byte it' with
      | (.error e, it'') => (.error e, it'')
      | (.ok modrm, it'') =>
        let reg_operand : Operand := ⟨.Register modrm.register, operand_size⟩
        let rm_operand : Operand :=
          ⟨OperandType.from_register_or_memory modrm.register_or_memory, operand_size⟩
        if (op_code >>> 1) &&& 1 = 1 then
          (.ok (Instruction.new operation
            (.DestinationAndSource reg_operand rm_operand)), it'')
        else
          (.ok (Instruction.new operation
            (.DestinationAndSource rm_operand reg_operand)), it'')

/-- Modelled from the spec: the arithmetic group operation selected by the
reg field of the ModR/M byte for opcode family `100000 s w`
("Immediate to reg/mem, group /0–/7 in reg field": ADD/OR/ADC/SBB/AND/SUB/XOR/CMP). -/
def group_operation (reg : Nat) : Operation :=
  match reg with
  | 0 => .Add
  | 1 => .Or
  | 2 => .Adc
  | 3 => .Sbb
  | 4 => .And
  | 5 => .Sub
  | 6 => .Xor
  | _ => .Cmp

/-- Modelled from the spec:
`operations::arithmetic::add::immediate_to_register_memory` (opcode family
`100000 s w`); the `add.rs` module is not in the source tree.  Reads the
ModR/M byte, selects the group operation from its reg field, then reads the
immediate: a little-endian word when `s w = 01` (opcode 0x81), a sign-extended
byte when `s w = 11` (opcode 0x83), a byte otherwise. -/
def add_immediate_to_register_memory (op_code : Nat) (it : List Nat) :
    Except Error Instruction × List Nat :=
  match it_read_u8 it with
  | (.error e, it') => (.error e, it')
  | (.ok mod_rm_byte, it') =>
    match OperandSize.try_from_low_bits (op_code &&& 1) with
    | .error e => (.error e, it')
    | .ok operand_size =>
      match RegisterOrMemory.try_from_modrm mod_rm_byte it' with
      | (.error e, it'') => (.error e, it'')
      | (.ok register_or_memory, it'') =>
        let operation := group_operation ((mod_rm_byte >>> 3) &&& 7)
        match (if op_code &&& 3 = 1 then it_read_u16 it''
               else if op_code &&& 3 = 3 then
                 match it_read_u8 it'' with
                 | (.ok b, rest) =>
                   (.ok (if 128 ≤ b then b ||| 0xFF00 else b), rest)
                 | (.error e, rest) => (.error e, rest)
               else it_read_u8 it'') with
        | (.error e, it3) => (.error e, it3)
        | (.ok immediate, it3) =>
          (.ok (Instruction.new operation (.DestinationAndSource
            ⟨OperandType.from_register_or_memory register_or_memory, operand_size⟩
            ⟨.Immediate immediate, operand_size⟩)), it3)

/-- Modelled from the spec:
`operations::data_transfer::mov::segment_register_to_register_memory`
(opcode 0x8C) and its converse (opcode 0x8E); the `mov.rs` module is not in
the source tree.  Reads the ModR/M byte, takes the segment register from its
reg field, the other operand from its r/m field, both word sized;
`to_segment` selects the direction. -/
def mov_segment_register (to_segment : Bool) (it : List Nat) :
    Except Error Instruction × List Nat :=
  match it_read_u8 it with
  | (.error e, it') => (.error e, it')
  | (.ok mod_rm_byte, it') =>
    match Segment.try_from_low_bits ((mod_rm_byte >>> 3) &&& 7) with
    | .error e => (.error e, it')
    | .ok segment =>
      match RegisterOrMemory.try_from_modrm mod_rm_byte it' with
      | (.error e, it'') => (.error e, it'')
      | (.ok register_or_memory, it'') =>
        let seg_operand : Operand := ⟨.Segment segment, .Word⟩
        let rm_operand : Operand :=
          ⟨OperandType.from_register_or_memory register_or_memory, .Word⟩
        if to_segment then
          (.ok (Instruction.new .Mov (.DestinationAndSource seg_operand rm_operand)), it'')
        else
          (.ok (Instruction.new .Mov (.DestinationAndSource rm_operand seg_operand)), it'')

/-- Modelled from the spec:
`operations::data_transfer::mov::immediate_to_register_memory`
(opcodes 0xC6/0xC7); the `mov.rs` module is not in the source tree.
Reads the ModR/M byte, then the immediate at the size given by `w`. -/
def mov_immediate_to_register_memory (op_code : Nat) (it : List Nat) :
    Except Error Instruction × List Nat :=
  match it_read_u8 it with
  | (.error e, it') => (.error e, it')
  | (.ok mod_rm_byte, it') =>
    match OperandSize.try_from_low_bits (op_code &&& 1) with
    | .error e => (.error e, it')
    | .ok operand_size =>
      match RegisterOrMemory.try_from_modrm mod_rm_byte it' with
      | (.error e, it'') => (.error e, it'')
      | (.ok register_or_memory, it'') =>
        match (match operand_size with
                | .Byte => it_read_u8 it''
                | .Word => it_read_u16 it'') with
        | (.error e, it3) => (.error e, it3)
        | (.ok immediate, it3) =>
          (.ok (Instruction.new .Mov (.DestinationAndSource
            ⟨OperandType.from_register_or_memory register_or_memory, operand_size⟩
            ⟨.Immediate immediate, operand_size⟩)), it3)

/-- Modelled from the spec: `operations::data_transfer::mov::memory_to_accumulator`
and `accumulator_to_memory` (opcode families `1010000w` / `1010001w`,
"MOV mem ↔ accumulator | 16-bit addr"); the `mov.rs` module is not in the
source tree.  Reads a little-endian 16-bit address; `to_accumulator` selects
the direction. -/
def mov_accumulator (to_accumulator : Bool) (op_code : Nat) (it : List Nat) :
    Except Error Instruction × List Nat :=
  match OperandSize.try_from_low_bits (op_code &&& 1) with
  | .error e => (.error e, it)
  | .ok operand_size =>
    match it_read_u16 it with
    | (.error e, it') => (.error e, it')
    | (.ok address, it') =>
      let acc : Operand := ⟨.Register .AlAx, operand_size⟩
      let mem : Operand := ⟨.Direct address, operand_size⟩
      if to_accumulator then
        (.ok (Instruction.new .Mov (.DestinationAndSource acc mem)), it')
      else
        (.ok (Instruction.new .Mov (.DestinationAndSource mem acc)), it')

/-- Modelled from the spec: the simple `operations::processor_control`
decoders (`halt`, `wait`, `bus_lock_prefix`, `complimentary_carry`,
`clear_carry`, `set_carry`, `clear_interrupt`, `set_interrupt`,
`clear_direction`, `set_direction`) and
`operations::processor_control::escape_to_external_device`; the
`processor_control.rs` module is not in the source tree.  Each decodes to a
bare instruction with no operands (the spec's opcode table row
"11110100 | HLT, etc. | processor control"; it gives no operand detail for
ESC, which is embedded as a bare `Esc`). -/
def processor_control (operation : Operation) (it : List Nat) :
    Except Error Instruction × List Nat :=
  (.ok (Instruction.new operation .None), it)

/-- Modelled from the spec:
`operations::string_manipulation::movs::move_byte_word` (opcodes 0xA4/0xA5);
the module is not in the source tree.  `w` selects MOVSB or MOVSW, with no
operands. -/
def movs_move_byte_word (op_code : Nat) (it : List Nat) :
    Except Error Instruction × List Nat :=
  if op_code &&& 1 = 1 then (.ok (Instruction.new .Movsw .None), it)
  else (.ok (Instruction.new .Movsb .None), it)

/-- Embedding of `decode_instruction`, from `crates/mrc_decoder/src/decode.rs`: consume the
first opcode byte and dispatch on it.  Arms whose handler modules are missing
from the source tree call the `Modelled from the spec:` helpers above; the
opcode lists and the inline arms (DEC/PUSH/POP/IN/TEST/CALL/JMP/RET/JE/JNE/INT
and the 0xF2/0xF3 repeat-prefix recursion, as well as the final
`InvalidOpCode` default) mirror the source `match` exactly.  Consuming from an
empty stream underflows with `UnexpectedEof` (spec error taxonomy). -/
def decode_instruction : List Nat → Except Error Instruction × List Nat
  | [] => (.error .UnexpectedEof, [])
  | op_code :: it =>
    match op_code with
    -- ADD
    | 0x00 | 0x01 | 0x02 | 0x03 =>
      register_memory_with_register_to_either .Add op_code it
    | 0x80 | 0x81 | 0x82 | 0x83 =>
      add_immediate_to_register_memory op_code it
    -- DEC, register: 0 1 0 0 1 reg
    | 0x48 | 0x49 | 0x4A | 0x4B | 0x4C | 0x4D | 0x4E | 0x4F =>
      (match Register.try_from_low_bits (op_code &&& 7) with
       | .ok r => (.ok (Instruction.new .Dec
           (.Destination ⟨.Register r, .Word⟩)), it)
       | .error e => (.error e, it))
    -- MOV
    | 0x88 | 0x89 | 0x8A | 0x8B =>
      register_memory_with_register_to_either .Mov op_code it
    | 0x8C => mov_segment_register false it
    | 0x8E => mov_segment_register true it
    | 0xC6 | 0xC7 => mov_immediate_to_register_memory op_code it
    | 0xB0 | 0xB1 | 0xB2 | 0xB3 | 0xB4 | 0xB5 | 0xB6 | 0xB7
    | 0xB8 | 0xB9 | 0xBA | 0xBB | 0xBC | 0xBD | 0xBE | 0xBF =>
      mov_immediate_to_register op_code it
    | 0xA0 | 0xA1 => mov_accumulator true op_code it
    | 0xA2 | 0xA3 => mov_accumulator false op_code it
    -- PUSH, register: 0 1 0 1 0 reg
    | 0x50 | 0x51 | 0x52 | 0x53 | 0x54 | 0x55 | 0x56 | 0x57 =>
      (match Register.try_from_low_bits (op_code &&& 7) with
       | .ok r => (.ok (Instruction.new .Push
           (.Destination ⟨.Register r, .Word⟩)), it)
       | .error e => (.error e, it))
    -- PUSH, segment register: 0 0 0 reg 1 1 0
    | 0x06 | 0x0E | 0x16 | 0x1E =>
      (match Segment.try_from_low_bits ((op_code >>> 3) &&& 7) with
       | .ok s => (.ok (Instruction.new .Push
           (.Destination ⟨.Segment s, .Word⟩)), it)
       | .error e => (.error e, it))
    -- POP, register: 0 1 0 1 1 reg
    | 0x58 | 0x59 | 0x5A | 0x5B | 0x5C | 0x5D | 0x5E | 0x5F =>
      (match Register.try_from_low_bits (op_code &&& 7) with
       | .ok r => (.ok (Instruction.new .Pop
           (.Destination ⟨.Register r, .Word⟩)), it)
       | .error e => (.error e, it))
    -- POP, segment register: 0 0 0 segment 1 1 1
    | 0x07 | 0x0F | 0x17 | 0x1F =>
      (match Segment.try_from_low_bits ((op_code >>> 3) &&& 7) with
       | .ok s => (.ok (Instruction.new .Pop
           (.Destination ⟨.Segment s, .Word⟩)), it)
       | .error e => (.error e, it))
    -- IN, fixed port: 1 1 1 0 0 1 0 w
    | 0xE4 | 0xE5 =>
      (match OperandSize.try_from_low_bits (op_code &&& 1) with
       | .error e => (.error e, it)
       | .ok operand_size =>
         match it_read_u8 it with
         | (.error e, it') => (.error e, it')
         | (.ok port, it') =>
           (.ok (Instruction.new .In (.DestinationAndSource
             ⟨.Register .AlAx, operand_size⟩
             ⟨.Immediate port, operand_size⟩)), it'))
    -- IN, variable port: 1 1 1 0 1 1 0 w
    | 0xEC | 0xED =>
      (match OperandSize.try_from_low_bits (op_code &&& 1) with
       | .error e => (.error e, it)
       | .ok operand_size =>
         (.ok (Instruction.new .In (.DestinationAndSource
           ⟨.Register .AlAx, operand_size⟩
           ⟨.Register .DlDx, .Word⟩)), it))
    -- TEST, immediate data to accumulator: 1 0 1 0 1 0 0 w
    | 0xA8 =>
      (match OperandSize.try_from_low_bits (op_code &&& 1) with
       | .error e => (.error e, it)
       | .ok operand_size =>
         match (match operand_size with
                 | .Byte => it_read_u8 it
                 | .Word => it_read_u16 it) with
         | (.error e, it') => (.error e, it')
         | (.ok immediate, it') =>
           (.ok (Instruction.new .Test (.DestinationAndSource
             ⟨.Register .AlAx, operand_size⟩
             ⟨.Immediate immediate, operand_size⟩)), it'))
    -- CALL, direct within segment
    | 0xE8 =>
      (match it_read_u16 it with
       | (.error e, it') => (.error e, it')
       | (.ok displacement, it') =>
         (.ok (Instruction.new .Call (.Offset displacement)), it'))
    -- JMP, direct intersegment
    | 0xEA =>
      (match it_read_u16 it with
       | (.error e, it') => (.error e, it')
       | (.ok offset, it') =>
         match it_read_u16 it' with
         | (.error e, it'') => (.error e, it'')
         | (.ok segment, it'') =>
           (.ok (Instruction.new .Jmp (.SegmentAndOffset segment offset)), it''))
    -- RET, within segment
    | 0xC3 => (.ok (Instruction.new .Ret .None), it)
    -- JE/JZ
    | 0x74 =>
      (match it_read_u8 it with
       | (.error e, it') => (.error e, it')
       | (.ok disp, it') => (.ok (Instruction.new .Je (.Offset disp)), it'))
    -- JNE/JNZ
    | 0x75 =>
      (match it_read_u8 it with
       | (.error e, it') => (.error e, it')
       | (.ok disp, it') => (.ok (Instruction.new .Jne (.Offset disp)), it'))
    -- INT, type specified
    | 0xCD =>
      (match it_read_u8 it with
       | (.error e, it') => (.error e, it')
       | (.ok ty, it') =>
         (.ok (Instruction.new .Int (.Destination ⟨.Immediate ty, .Byte⟩)), it'))
    -- Processor control
    | 0xD8 | 0xD9 | 0xDA | 0xDB | 0xDC | 0xDD | 0xDE | 0xDF =>
      processor_control .Esc it
    | 0x9B => processor_control .Wait it
    | 0xF0 => processor_control .Lock it
    | 0xF4 => processor_control .Hlt it
    | 0xF5 => processor_control .Cmc it
    | 0xF8 => processor_control .Clc it
    | 0xF9 => processor_control .Stc it
    | 0xFA => processor_control .Cli it
    | 0xFB => processor_control .Sti it
    | 0xFC => processor_control .Cld it
    | 0xFD => processor_control .Std it
    -- String manipulation
    | 0xA4 | 0xA5 => movs_move_byte_word op_code it
    -- Overrides
    | 0xF2 =>
      (match decode_instruction it with
       | (.ok instruction, it') =>
         (.ok { instruction with rep := some .NotEqual }, it')
       | (.error e, it') => (.error e, it'))
    | 0xF3 =>
      (match decode_instruction it with
       | (.ok instruction, it') =>
         (.ok { instruction with rep := some .Equal }, it')
       | (.error e, it') => (.error e, it'))
    | _ => (.error (.InvalidOpCode op_code), it)

/-- The displacement bytes a `RegisterOrMemory` value carries on the wire,
little-endian (u16 via its two bytes, u8 via one byte, none otherwise). -/
def RegisterOrMemory.carried_bytes : RegisterOrMemory → List Nat
  | .Direct offset => [offset &&& 255, offset >>> 8]
  | .DisplacementByte _ d => [d]
  | .DisplacementWord _ d => [d &&& 255, d >>> 8]
  | .Indirect _ => []
  | .Register _ => []

end MrcDecoder

namespace MrcEmu

/-- Modelled from the spec: the `Flags` bitflags type of the emulator's
`cpu` module is not in the source tree.  The spec describes a 16-bit flags
word with named bits {CARRY, PARITY, AUX_CARRY, ZERO, SIGN, OVERFLOW,
DIRECTION, INTERRUPT, TRAP}; the masks use the standard 8086 bit positions.
A flags value is a `Nat` below 2^16. -/
def Flags : Type := Nat

/-- CARRY mask (bit 0). -/
def CARRY : Nat := 0x0001
/-- PARITY mask (bit 2). -/
def PARITY : Nat := 0x0004
/-- AUX_CARRY mask (bit 4). -/
def AUX_CARRY : Nat := 0x0010
/-- ZERO mask (bit 6). -/
def ZERO : Nat := 0x0040
/-- SIGN mask (bit 7). -/
def SIGN : Nat := 0x0080
/-- TRAP mask (bit 8). -/
def TRAP : Nat := 0x0100
/-- INTERRUPT mask (bit 9). -/
def INTERRUPT : Nat := 0x0200
/-- DIRECTION mask (bit 10). -/
def DIRECTION : Nat := 0x0400
/-- OVERFLOW mask (bit 11). -/
def OVERFLOW : Nat := 0x0800

/-- Modelled from the spec: `Flags::set` is the `bitflags` crate's `set`:
insert the mask's bits when the condition holds, remove them otherwise
(removal is a bitwise and with the 16-bit complement of the mask). -/
def flags_set (flags mask : Nat) (value : Bool) : Nat :=
  if value then flags ||| mask else flags &&& (0xFFFF ^^^ mask)

/-- Modelled from the spec: the `SignificantBit` trait of the emulator's
`cpu` module is not in the source tree; for a u8 the most significant bit
is bit 7. -/
def most_significant_bit_u8 (v : Nat) : Bool := v.testBit 7

/-- Modelled from the spec: most significant bit of a u16 is bit 15. -/
def most_significant_bit_u16 (v : Nat) : Bool := v.testBit 15

/-- PARITY_TABLE, transcribed from
`bins/mrc_emu/src/cpu/operations/mod.rs` (256 entries). -/
def PARITY_TABLE : List Nat := [
  1, 0, 0, 1, 0, 1, 1, 0, 0, 1, 1, 0, 1, 0, 0, 1, 0, 1, 1, 0, 1, 0, 0, 1, 1, 0, 0, 1, 0, 1, 1, 0,
  0, 1, 1, 0, 1, 0, 0, 1, 1, 0, 0, 1, 0, 1, 1, 0, 1, 0, 0, 1, 0, 1, 1, 0, 0, 1, 1, 0, 1, 0, 0, 1,
  0, 1, 1, 0, 1, 0, 0, 1, 1, 0, 0, 1, 0, 1, 1, 0, 1, 0, 0, 1, 0, 1, 1, 0, 0, 1, 1, 0, 1, 0, 0, 1,
  1, 0, 0, 1, 0, 1, 1, 0, 0, 1, 1, 0, 1, 0, 0, 1, 0, 1, 1, 0, 1, 0, 0, 1, 1, 0, 0, 1, 0, 1, 1, 0,
  0, 1, 1, 0, 1, 0, 0, 1, 1, 0, 0, 1, 0, 1, 1, 0, 1, 0, 0, 1, 0, 1, 1, 0, 0, 1, 1, 0, 1, 0, 0, 1,
  1, 0, 0, 1, 0, 1, 1, 0, 0, 1, 1, 0, 1, 0, 0, 1, 0, 1, 1, 0, 1, 0, 0, 1, 1, 0, 0, 1, 0, 1, 1, 0,
  1, 0, 0, 1, 0, 1, 1, 0, 0, 1, 1, 0, 1, 0, 0, 1, 0, 1, 1, 0, 1, 0, 0, 1, 1, 0, 0, 1, 0, 1, 1, 0,
  0, 1, 1, 0, 1, 0, 0, 1, 1, 0, 0, 1, 0, 1, 1, 0, 1, 0, 0, 1, 0, 1, 1, 0, 0, 1, 1, 0, 1, 0, 0, 1]

/-- Indexing into PARITY_TABLE (`PARITY_TABLE[i]`; the index is a u8 in the
source, so it is always in range). -/
def parity_table_at (i : Nat) : Nat := PARITY_TABLE.getD i 0

/-- Embedding of `flags_from_byte_result`, from `bins/mrc_emu/src/cpu/operations/mod.rs`:
sets ZERO from `result == 0`, SIGN from the result's most significant bit,
and PARITY from the 256-entry lookup table. -/
def flags_from_byte_result (flags : Nat) (result : Nat) : Nat :=
  let flags := flags_set flags ZERO (result == 0)
  let flags := flags_set flags SIGN (most_significant_bit_u8 result)
  flags_set flags PARITY (parity_table_at result == 1)

/-- Embedding of `flags_from_word_result`, from `bins/mrc_emu/src/cpu/operations/mod.rs`:
like the byte version, but SIGN comes from bit 15 and the parity lookup
uses `result & 0xFF`. -/
def flags_from_word_result (flags : Nat) (result : Nat) : Nat :=
  let flags := flags_set flags ZERO (result == 0)
  let flags := flags_set flags SIGN (most_significant_bit_u16 result)
  flags_set flags PARITY (parity_table_at (result &&& 0xFF) == 1)

/-- The number of set bits among the low 8 bits of `n` (spec-side notion for
the parity-flag claims). -/
def bit_count8 (n : Nat) : Nat :=
  ((List.range 8).filter (fun k => n.testBit k)).length

end MrcEmu

namespace MrcDis

open MrcX86 MrcDecoder

/-- One output line of the disassembler's section walker, from
`bins/mrc_dis/src/main.rs`: either a decoded instruction (with its start
position and the number of bytes it used) or a `db` data-byte line. -/
inductive DisLine where
  | instructionLine (start : Nat) (bytes_used : Nat) (instruction : Instruction)
  | dataByteLine (start : Nat) (byte : Nat)
deriving DecidableEq, Repr

/-- The loop body of `print_section`, from `bins/mrc_dis/src/main.rs`:
while bytes remain, decode at the current position; on success emit an
instruction line and continue after the consumed bytes; on failure emit a
`db` line for the byte at the start position and continue from wherever the
failed decode left the iterator (the source does not rewind the iterator on
failure).  `fuel` bounds the iteration count; each iteration consumes at
least the opcode byte, so `data.length` fuel is enough (see
`decode_instruction_shrinks`). -/
def print_section_walk : Nat → Nat → List Nat → List DisLine
  | 0, _, _ => []
  | _ + 1, _, [] => []
  | fuel + 1, position, b :: rest =>
    match decode_instruction (b :: rest) with
    | (.ok instruction, it') =>
      let bytes_used := (b :: rest).length - it'.length
      .instructionLine position bytes_used instruction ::
        print_section_walk fuel (position + bytes_used) it'
    | (.error _, it') =>
      let bytes_used := (b :: rest).length - it'.length
      .dataByteLine position b ::
        print_section_walk fuel (position + bytes_used) it'

/-- Embedding of `print_section`, from `bins/mrc_dis/src/main.rs`, on a section's bytes
(positions are offsets into the section, as in the source before
`relative_to` maps them to segment:offset form). -/
def print_section (data : List Nat) : List DisLine :=
  print_section_walk data.length 0 data

end MrcDis

namespace MrcCompiler

/-- Embedding of `Span`, from `crates/mrc_compiler/src/ast.rs`: `std::ops::Range<usize>`,
embedded as a start/end pair. -/
structure Span where
  start : Nat
  stop : Nat
deriving DecidableEq, Repr

/-- Embedding of `Label`, from `crates/mrc_compiler/src/ast.rs`. -/
structure Label where
  span : Span
  name : String
deriving DecidableEq, Repr

/-- Embedding of `ByteRegister`, from `crates/mrc_compiler/src/ast.rs`. -/
inductive ByteRegister where
  | Al | Cl | Dl | Bl | Ah | Ch | Dh | Bh
deriving DecidableEq, Repr

/-- Embedding of `WordRegister`, from `crates/mrc_compiler/src/ast.rs`. -/
inductive WordRegister where
  | Ax | Cx | Dx | Bx | Sp | Bp | Si | Di
deriving DecidableEq, Repr

/-- Embedding of `Register`, from `crates/mrc_compiler/src/ast.rs`. -/
inductive Register where
  | Byte (r : ByteRegister)
  | Word (r : WordRegister)
deriving DecidableEq, Repr

/-- Embedding of `Segment`, from `crates/mrc_compiler/src/ast.rs`. -/
inductive Segment where
  | ES | CS | SS | DS
deriving DecidableEq, Repr

/-- Embedding of `DataSize`, from `crates/mrc_compiler/src/ast.rs`. -/
inductive DataSize where
  | Byte | Word
deriving DecidableEq, Repr

/-- Embedding of `Value`, from `crates/mrc_compiler/src/ast.rs` (i32 constants, label
references, register names). -/
inductive Value where
  | Constant (value : Int)
  | Label (label : Label)
  | Register (register : Register)
deriving DecidableEq, Repr

/-- Embedding of `Operator`, from `crates/mrc_compiler/src/ast.rs`. -/
inductive Operator where
  | Add | Subtract | Multiply | Divide
deriving DecidableEq, Repr

/-- Embedding of `Expression`, from `crates/mrc_compiler/src/ast.rs`. -/
inductive Expression where
  | PrefixOperator (span : Span) (op : Operator) (right : Expression)
  | InfixOperator (span : Span) (op : Operator) (left right : Expression)
  | Term (span : Span) (value : Value)
deriving DecidableEq, Repr

/-- Embedding of `Operand`, from `crates/mrc_compiler/src/ast.rs`. -/
inductive Operand where
  | Immediate (span : Span) (expr : Expression)
  | Address (span : Span) (expr : Expression)
      (data_size : Option DataSize) (segment : Option Segment)
  | Register (span : Span) (register : Register)
  | Segment (span : Span) (segment : Segment)
deriving DecidableEq, Repr

/-- Embedding of `Operands`, from `crates/mrc_compiler/src/ast.rs`. -/
inductive Operands where
  | None (span : Span)
  | Destination (span : Span) (dst : Operand)
  | DestinationAndSource (span : Span) (dst src : Operand)
deriving DecidableEq, Repr

/-- Embedding of `Instruction` of the compiler AST, from `crates/mrc_compiler/src/ast.rs`.
Its `operation` field has type `mrc_instruction::Operation`, a crate missing
from the source tree; the `mrc_x86` Operation enumeration stands in for it. -/
structure Instruction where
  span : Span
  operation : MrcX86.Operation
  operands : Operands
deriving DecidableEq, Repr

/-- Embedding of `LineContent`, from `crates/mrc_compiler/src/ast.rs`. -/
inductive LineContent where
  | None
  | Instruction (instruction : Instruction)
  | Data (span : Span) (data : List Nat)
  | Constant (span : Span) (expr : Expression)
  | Times (span : Span) (expr : Expression) (content : LineContent)
deriving DecidableEq, Repr

/-- Embedding of `LineContent::span`, from `crates/mrc_compiler/src/ast.rs`.  On
`LineContent::None` the source hits `unreachable!()` and panics; the panic is
embedded as `Option.none`, every other variant returns its stored span. -/
def LineContent.span : LineContent → Option Span
  | .None => none
  | .Instruction instruction => some instruction.span
  | .Data span _ => some span
  | .Constant span _ => some span
  | .Times span _ _ => some span

/-- Embedding of `Line`, from `crates/mrc_compiler/src/ast.rs`. -/
structure Line where
  label : Option Label
  content : LineContent
deriving DecidableEq, Repr

end MrcCompiler

namespace MrcDecoder

/-- The number of displacement bytes the spec says a ModR/M byte adds:
2 for mod=00 rm=110 (direct address), 0 for other mod=00, 1 for mod=01,
2 for mod=10, 0 for mod=11. -/
def modrm_displacement_length (mod_rm_byte : Nat) : Nat :=
  if mod_rm_byte >>> 6 = 0 then (if mod_rm_byte &&& 7 = 6 then 2 else 0)
  else if mod_rm_byte >>> 6 = 1 then 1
  else if mod_rm_byte >>> 6 = 2 then 2
  else 0

end MrcDecoder

open MrcX86 MrcDecoder MrcEmu MrcDis

/-- C1 (counterexample): starting a decode at byte 0xE6 does not produce an
OUT instruction; it fails with `InvalidOpCode 0xE6`, because
`decode_instruction` has no arm for 0xE6. -/
theorem c1_out_not_decoded :
    decode_instruction [0xE6, 0x00, 0xF4] =
      (.error (.InvalidOpCode 0xE6), [0x00, 0xF4]) := rfl

/-- C1 (amended): decoding `B0 01 E6 00 F4` yields `MOV AL, 0x01` (consuming
two bytes), and the second decode, starting at byte 0xE6, fails with
`InvalidOpCode 0xE6` for every continuation of the stream: the decoder has
no OUT arm. -/
theorem c1_decode_b0_01_e6 :
    decode_instruction [0xB0, 0x01, 0xE6, 0x00, 0xF4] =
      (.ok (Instruction.new .Mov (.DestinationAndSource
        ⟨.Register .AlAx, .Byte⟩ ⟨.Immediate 0x01, .Byte⟩)), [0xE6, 0x00, 0xF4]) ∧
    ∀ s, decode_instruction (0xE6 :: s) = (.error (.InvalidOpCode 0xE6), s) :=
  ⟨rfl, fun _ => rfl⟩

/-- C3 (code evaluated at the failing input): the ModR/M byte 0x40 (mod=01,
rm=000) with displacement byte 0x80 decodes to `DisplacementByte BxSi 0x80`,
and converting it to an operand type zero-extends, yielding
`Indirect BxSi 0x0080` rather than the sign-extended `0xFF80`. -/
theorem c3_mod01_zero_extends :
    RegisterOrMemory.try_from_modrm 0x40 [0x80] =
      (.ok (.DisplacementByte .BxSi 0x80), []) ∧
    OperandType.from_register_or_memory (.DisplacementByte .BxSi 0x80) =
      .Indirect .BxSi 0x0080 ∧
    (0x0080 : Nat) ≠ 0xFF80 :=
  ⟨rfl, rfl, by decide⟩

/-- C5 (counterexample): the segment-override byte 0x26 followed by a
decodable instruction (0xF4, HLT) fails with `InvalidOpCode 0x26`: the
decoder has no segment-override arms. -/
theorem c5_segment_override_rejected :
    decode_instruction [0xF4] = (.ok (Instruction.new .Hlt .None), []) ∧
    decode_instruction [0x26, 0xF4] = (.error (.InvalidOpCode 0x26), [0xF4]) :=
  ⟨rfl, rfl⟩

/-- Unfolding lemma: a 0xF2 prefix byte recurses and stamps `NotEqual`. -/
theorem decode_f2_cons (s : List Nat) (i : Instruction) (s' : List Nat)
    (h : decode_instruction s = (.ok i, s')) :
    decode_instruction (0xF2 :: s) = (.ok { i with rep := some .NotEqual }, s') := by
  have unf : decode_instruction (0xF2 :: s) =
      (match decode_instruction s with
        | (.ok instruction, it') =>
          (.ok { instruction with rep := some Repeat.NotEqual }, it')
        | (.error e, it') => (.error e, it')) := rfl
  rw [unf, h]

/-- Unfolding lemma: a 0xF3 prefix byte recurses and stamps `Equal`. -/
theorem decode_f3_cons (s : List Nat) (i : Instruction) (s' : List Nat)
    (h : decode_instruction s = (.ok i, s')) :
    decode_instruction (0xF3 :: s) = (.ok { i with rep := some .Equal }, s') := by
  have unf : decode_instruction (0xF3 :: s) =
      (match decode_instruction s with
        | (.ok instruction, it') =>
          (.ok { instruction with rep := some Repeat.Equal }, it')
        | (.error e, it') => (.error e, it')) := rfl
  rw [unf, h]

/-- C5 (amended): the REP prefix bytes 0xF2/0xF3 are decoded by a recursive
call whose result gets its repeat field stamped (NotEqual resp. Equal);
the LOCK byte 0xF0 is dispatched to the processor-control handler (embedded
as a bare LOCK instruction; no field is stamped); the four segment-override
bytes 0x26/0x2E/0x36/0x3E are rejected with `InvalidOpCode`. -/
theorem c5_prefix_handling :
    (∀ s i s', decode_instruction s = (.ok i, s') →
      decode_instruction (0xF2 :: s) = (.ok { i with rep := some .NotEqual }, s') ∧
      decode_instruction (0xF3 :: s) = (.ok { i with rep := some .Equal }, s')) ∧
    (∀ s, decode_instruction (0xF0 :: s) = (.ok (Instruction.new .Lock .None), s)) ∧
    (∀ s, decode_instruction (0x26 :: s) = (.error (.InvalidOpCode 0x26), s)) ∧
    (∀ s, decode_instruction (0x2E :: s) = (.error (.InvalidOpCode 0x2E), s)) ∧
    (∀ s, decode_instruction (0x36 :: s) = (.error (.InvalidOpCode 0x36), s)) ∧
    (∀ s, decode_instruction (0x3E :: s) = (.error (.InvalidOpCode 0x3E), s)) := by
  exact ⟨fun s i s' h => ⟨decode_f2_cons s i s' h, decode_f3_cons s i s' h⟩,
    fun s => rfl, fun s => rfl, fun s => rfl, fun s => rfl, fun s => rfl⟩

/-- C5 (witness): a REP prefix ahead of HLT decodes to HLT with the repeat
field set. -/
theorem c5_witness :
    decode_instruction [0xF2, 0xF4] =
      (.ok ⟨.Hlt, none, some .NotEqual, .None⟩, []) :=
  (c5_prefix_handling.1 [0xF4] (Instruction.new .Hlt .None) [] rfl).1

/-- C6 (counterexample): five REP prefixes in a row are not rejected; the
decoder recurses through all of them and decodes the final HLT. -/
theorem c6_five_prefixes_accepted :
    decode_instruction [0xF2, 0xF2, 0xF2, 0xF2, 0xF2, 0xF4] =
      (.ok ⟨.Hlt, none, some .NotEqual, .None⟩, []) := rfl

/-- C6 (amended): `decode_instruction` imposes no prefix-count limit: any
number of 0xF2 prefix bytes ahead of a decodable instruction decodes to
that instruction with the repeat field set, never an error. -/
theorem c6_no_prefix_limit :
    ∀ (n : Nat) (s : List Nat) (i : Instruction) (s' : List Nat),
      decode_instruction s = (.ok i, s') →
      decode_instruction (List.replicate (n + 1) 0xF2 ++ s) =
        (.ok { i with rep := some .NotEqual }, s') := by
  intro n
  induction n with
  | zero =>
    intro s i s' h
    exact decode_f2_cons s i s' h
  | succ n ih =>
    intro s i s' h
    have step := ih s i s' h
    have outer := decode_f2_cons _ _ _ step
    obtain ⟨op, so, r, ops⟩ := i
    simpa [List.replicate_succ] using outer

/-- C6 (witness): six REP prefixes ahead of HLT decode successfully. -/
theorem c6_witness :
    decode_instruction (List.replicate 6 0xF2 ++ [0xF4]) =
      (.ok ⟨.Hlt, none, some .NotEqual, .None⟩, []) :=
  c6_no_prefix_limit 5 [0xF4] (Instruction.new .Hlt .None) [] rfl

/-- C9 (counterexample): on input `F2 E6 F4` the walker does not resume one
byte past the failing position: the failed decode of the REP prefix consumed
two bytes (0xF2 and the invalid 0xE6), so the walker never attempts
position 1; the output predicted by the claim (db at 0, db at 1, HLT at 2)
is not produced. -/
theorem c9_no_rewind :
    print_section [0xF2, 0xE6, 0xF4] ≠
      [.dataByteLine 0 0xF2, .dataByteLine 1 0xE6,
       .instructionLine 2 1 (Instruction.new .Hlt .None)] := by
  decide

/-- C9 (amended): on a decode failure the walker emits a `db` line for the
byte at the failing start position and resumes from wherever the failed
decode left the iterator — the failing position plus the number of bytes the
failed decode consumed (which is one only when the failed decode consumed
exactly the opcode byte).  On `F2 E6 F4` the failed decode at position 0
consumed two bytes, so the walker resumes at position 2 and prints HLT
there, never attempting position 1. -/
theorem c9_resume_after_consumed :
    (∀ (fuel position b : Nat) (rest : List Nat) (e : Error) (s' : List Nat),
      decode_instruction (b :: rest) = (.error e, s') →
      print_section_walk (fuel + 1) position (b :: rest) =
        .dataByteLine position b ::
          print_section_walk fuel (position + ((b :: rest).length - s'.length)) s') ∧
    print_section [0xF2, 0xE6, 0xF4] =
      [.dataByteLine 0 0xF2, .instructionLine 2 1 (Instruction.new .Hlt .None)] := by
  constructor
  · intro fuel position b rest e s' h
    simp [print_section_walk, h]
  · rfl

/-- C9 (witness): the one-step resumption rule applied to the singleton
section `E6`, whose decode fails consuming one byte. -/
theorem c9_witness :
    print_section_walk 1 0 [0xE6] = [.dataByteLine 0 0xE6] := by
  simpa using
    c9_resume_after_consumed.1 0 0 0xE6 [] (.InvalidOpCode 0xE6) [] rfl

/-- C10: `LineContent::span` returns the stored span for Instruction, Data,
Constant and Times contents, and on `LineContent::None` it reaches the
`unreachable!()` panic, embedded as `Option.none`. -/
theorem c10_line_content_span :
    MrcCompiler.LineContent.span .None = none ∧
    (∀ i, MrcCompiler.LineContent.span (.Instruction i) = some i.span) ∧
    (∀ s d, MrcCompiler.LineContent.span (.Data s d) = some s) ∧
    (∀ s e, MrcCompiler.LineContent.span (.Constant s e) = some s) ∧
    (∀ s e c, MrcCompiler.LineContent.span (.Times s e c) = some s) :=
  ⟨rfl, fun _ => rfl, fun _ _ => rfl, fun _ _ => rfl, fun _ _ _ => rfl⟩

/-- C2: a successfully parsed ModR/M byte consumes exactly the displacement
bytes dictated by its mod and rm fields: 2 when mod=00 rm=110, 0 for other
mod=00, 1 when mod=01, 2 when mod=10, 0 when mod=11; and whenever that many
bytes are available the parse succeeds. -/
theorem c2_modrm_displacement_bytes (b : Nat) (hb : b < 256) (s : List Nat)
    (hs : modrm_displacement_length b ≤ s.length) :
    ∃ r, RegisterOrMemory.try_from_modrm b s =
      (.ok r, s.drop (modrm_displacement_length b)) := by
  have hr7 : b &&& 7 ≤ 7 := Nat.and_le_right
  have hm : b >>> 6 = 0 ∨ b >>> 6 = 1 ∨ b >>> 6 = 2 ∨ b >>> 6 = 3 := by omega
  have hr : b &&& 7 = 0 ∨ b &&& 7 = 1 ∨ b &&& 7 = 2 ∨ b &&& 7 = 3 ∨
      b &&& 7 = 4 ∨ b &&& 7 = 5 ∨ b &&& 7 = 6 ∨ b &&& 7 = 7 := by omega
  rcases s with _ | ⟨x, _ | ⟨y, t⟩⟩ <;>
    rcases hm with h6 | h6 | h6 | h6 <;>
    rcases hr with h7 | h7 | h7 | h7 | h7 | h7 | h7 | h7 <;>
    simp [modrm_displacement_length, h6, h7] at hs ⊢ <;>
    simp [RegisterOrMemory.try_from_modrm, h6, h7, AddressingMode.try_from_low_bits,
      Register.try_from_low_bits, it_read_u8, it_read_u16]

/-- C2 (witness): ModR/M byte 0x46 (mod=01, rm=110) with a one-byte stream
consumes exactly one displacement byte. -/
theorem c2_witness :
    ((0x46 : Nat) < 256 ∧ modrm_displacement_length 0x46 ≤ ([5] : List Nat).length) ∧
    ∃ r, RegisterOrMemory.try_from_modrm 0x46 [5] =
      (.ok r, ([5] : List Nat).drop (modrm_displacement_length 0x46)) :=
  ⟨⟨by norm_num, by decide⟩, c2_modrm_displacement_bytes 0x46 (by norm_num) [5] (by decide)⟩

/-- Splitting a value into its low byte and its high bits shifted down, then
reassembling little-endian, is the identity. -/
theorem low_byte_high_bits_reassemble (d : Nat) :
    ((d &&& 255) ||| ((d >>> 8) <<< 8)) = d := by
  apply Nat.eq_of_testBit_eq
  intro i
  simp only [Nat.testBit_or, Nat.testBit_and, Nat.testBit_shiftLeft, Nat.testBit_shiftRight]
  rw [show (255 : Nat) = 2 ^ 8 - 1 from rfl, Nat.testBit_two_pow_sub_one]
  by_cases h : i < 8
  · simp [h, Nat.not_le.2 h]
  · have h8 : 8 + (i - 8) = i := by omega
    simp [h, Nat.le_of_not_lt h, h8]

/-- C4 (counterexample): the round-trip fails for `Indirect(Bp)`: it encodes
to the ModR/M byte 0x06 (mod=00, rm=110), which is the `Direct` encoding, so
decoding that byte with the (empty) displacement bytes it carries underflows,
and with two displacement bytes supplied it decodes to `Direct`, not
`Indirect(Bp)`. -/
theorem c4_indirect_bp_not_roundtrip :
    Modrm.to_byte ⟨.AlAx, .Indirect .Bp⟩ = 0x06 ∧
    Modrm.try_from_byte 0x06 ((RegisterOrMemory.Indirect .Bp).carried_bytes) =
      (.error .UnexpectedEof, []) ∧
    Modrm.try_from_byte 0x06 [0, 0] = (.ok ⟨.AlAx, .Direct 0⟩, []) :=
  ⟨rfl, rfl, rfl⟩

set_option maxRecDepth 100000 in
/-- Composing a ModR/M byte from 2-bit mode, 3-bit register and 3-bit r/m
fields, the three fields read back exactly. -/
theorem compose_bits : ∀ m < 4, ∀ e < 8, ∀ r < 8,
    (((m <<< 6) ||| (e <<< 3)) ||| r) >>> 6 = m ∧
    ((((m <<< 6) ||| (e <<< 3)) ||| r) >>> 3) &&& 7 = e ∧
    (((m <<< 6) ||| (e <<< 3)) ||| r) &&& 7 = r := by
  decide

/-- Register encodings are three bits wide. -/
theorem encoding_for_register_lt (reg : Register) : encoding_for_register reg < 8 := by
  cases reg <;> decide

/-- Decoding a register's own encoding returns the register. -/
theorem register_try_from_encoding (reg : Register) :
    Register.try_from_low_bits (encoding_for_register reg) = .ok reg := by
  cases reg <;> rfl

/-- C4 (amended): encoding a `Modrm` value to its ModR/M byte and decoding
that byte back, supplying the displacement bytes the value carries, returns
the original value — for every register field and every `RegisterOrMemory`
variant except `Indirect(Bp)`, whose encoding collides with `Direct`
(mod=00, rm=110). -/
theorem c4_modrm_roundtrip (m : Modrm) (h : m.register_or_memory ≠ .Indirect .Bp) :
    Modrm.try_from_byte m.to_byte m.register_or_memory.carried_bytes = (.ok m, []) := by
  obtain ⟨reg, rm⟩ := m
  have he := encoding_for_register_lt reg
  cases rm with
  | Direct d =>
    have hb := compose_bits 0 (by norm_num) (encoding_for_register reg) he 6 (by norm_num)
    simp only [Modrm.to_byte, encoding_for_addressing_mode,
      RegisterOrMemory.carried_bytes, Modrm.try_from_byte,
      RegisterOrMemory.try_from_modrm, hb.1, hb.2.1, hb.2.2,
      register_try_from_encoding, AddressingMode.try_from_low_bits, it_read_u16,
      low_byte_high_bits_reassemble]
  | Indirect am =>
    cases am with
    | BxSi =>
      have hb := compose_bits 0 (by norm_num) (encoding_for_register reg) he 0 (by norm_num)
      simp only [Modrm.to_byte, encoding_for_addressing_mode,
        RegisterOrMemory.carried_bytes, Modrm.try_from_byte,
        RegisterOrMemory.try_from_modrm, hb.1, hb.2.1, hb.2.2,
        register_try_from_encoding, AddressingMode.try_from_low_bits]
    | BxDi =>
      have hb := compose_bits 0 (by norm_num) (encoding_for_register reg) he 1 (by norm_num)
      simp only [Modrm.to_byte, encoding_for_addressing_mode,
        RegisterOrMemory.carried_bytes, Modrm.try_from_byte,
        RegisterOrMemory.try_from_modrm, hb.1, hb.2.1, hb.2.2,
        register_try_from_encoding, AddressingMode.try_from_low_bits]
    | BpSi =>
      have hb := compose_bits 0 (by norm_num) (encoding_for_register reg) he 2 (by norm_num)
      simp only [Modrm.to_byte, encoding_for_addressing_mode,
        RegisterOrMemory.carried_bytes, Modrm.try_from_byte,
        RegisterOrMemory.try_from_modrm, hb.1, hb.2.1, hb.2.2,
        register_try_from_encoding, AddressingMode.try_from_low_bits]
    | BpDi =>
      have hb := compose_bits 0 (by norm_num) (encoding_for_register reg) he 3 (by norm_num)
      simp only [Modrm.to_byte, encoding_for_addressing_mode,
        RegisterOrMemory.carried_bytes, Modrm.try_from_byte,
        RegisterOrMemory.try_from_modrm, hb.1, hb.2.1, hb.2.2,
        register_try_from_encoding, AddressingMode.try_from_low_bits]
    | Si =>
      have hb := compose_bits 0 (by norm_num) (encoding_for_register reg) he 4 (by norm_num)
      simp only [Modrm.to_byte, encoding_for_addressing_mode,
        RegisterOrMemory.carried_bytes, Modrm.try_from_byte,
        RegisterOrMemory.try_from_modrm, hb.1, hb.2.1, hb.2.2,
        register_try_from_encoding, AddressingMode.try_from_low_bits]
    | Di =>
      have hb := compose_bits 0 (by norm_num) (encoding_for_register reg) he 5 (by norm_num)
      simp only [Modrm.to_byte, encoding_for_addressing_mode,
        RegisterOrMemory.carried_bytes, Modrm.try_from_byte,
        RegisterOrMemory.try_from_modrm, hb.1, hb.2.1, hb.2.2,
        register_try_from_encoding, AddressingMode.try_from_low_bits]
    | Bp => exact absurd rfl h
    | Bx =>
      have hb := compose_bits 0 (by norm_num) (encoding_for_register reg) he 7 (by norm_num)
      simp only [Modrm.to_byte, encoding_for_addressing_mode,
        RegisterOrMemory.carried_bytes, Modrm.try_from_byte,
        RegisterOrMemory.try_from_modrm, hb.1, hb.2.1, hb.2.2,
        register_try_from_encoding, AddressingMode.try_from_low_bits]
  | DisplacementByte am d =>
    cases am with
    | BxSi =>
      have hb := compose_bits 1 (by norm_num) (encoding_for_register reg) he 0 (by norm_num)
      simp only [Modrm.to_byte, encoding_for_addressing_mode,
        RegisterOrMemory.carried_bytes, Modrm.try_from_byte,
        RegisterOrMemory.try_from_modrm, hb.1, hb.2.1, hb.2.2,
        register_try_from_encoding, AddressingMode.try_from_low_bits, it_read_u8]
    | BxDi =>
      have hb := compose_bits 1 (by norm_num) (encoding_for_register reg) he 1 (by norm_num)
      simp only [Modrm.to_byte, encoding_for_addressing_mode,
        RegisterOrMemory.carried_bytes, Modrm.try_from_byte,
        RegisterOrMemory.try_from_modrm, hb.1, hb.2.1, hb.2.2,
        register_try_from_encoding, AddressingMode.try_from_low_bits, it_read_u8]
    | BpSi =>
      have hb := compose_bits 1 (by norm_num) (encoding_for_register reg) he 2 (by norm_num)
      simp only [Modrm.to_byte, encoding_for_addressing_mode,
        RegisterOrMemory.carried_bytes, Modrm.try_from_byte,
        RegisterOrMemory.try_from_modrm, hb.1, hb.2.1, hb.2.2,
        register_try_from_encoding, AddressingMode.try_from_low_bits, it_read_u8]
    | BpDi =>
      have hb := compose_bits 1 (by norm_num) (encoding_for_register reg) he 3 (by norm_num)
      simp only [Modrm.to_byte, encoding_for_addressing_mode,
        RegisterOrMemory.carried_bytes, Modrm.try_from_byte,
        RegisterOrMemory.try_from_modrm, hb.1, hb.2.1, hb.2.2,
        register_try_from_encoding, AddressingMode.try_from_low_bits, it_read_u8]
    | Si =>
      have hb := compose_bits 1 (by norm_num) (encoding_for_register reg) he 4 (by norm_num)
      simp only [Modrm.to_byte, encoding_for_addressing_mode,
        RegisterOrMemory.carried_bytes, Modrm.try_from_byte,
        RegisterOrMemory.try_from_modrm, hb.1, hb.2.1, hb.2.2,
        register_try_from_encoding, AddressingMode.try_from_low_bits, it_read_u8]
    | Di =>
      have hb := compose_bits 1 (by norm_num) (encoding_for_register reg) he 5 (by norm_num)
      simp only [Modrm.to_byte, encoding_for_addressing_mode,
        RegisterOrMemory.carried_bytes, Modrm.try_from_byte,
        RegisterOrMemory.try_from_modrm, hb.1, hb.2.1, hb.2.2,
        register_try_from_encoding, AddressingMode.try_from_low_bits, it_read_u8]
    | Bp =>
      have hb := compose_bits 1 (by norm_num) (encoding_for_register reg) he 6 (by norm_num)
      simp only [Modrm.to_byte, encoding_for_addressing_mode,
        RegisterOrMemory.carried_bytes, Modrm.try_from_byte,
        RegisterOrMemory.try_from_modrm, hb.1, hb.2.1, hb.2.2,
        register_try_from_encoding, AddressingMode.try_from_low_bits, it_read_u8]
    | Bx =>
      have hb := compose_bits 1 (by norm_num) (encoding_for_register reg) he 7 (by norm_num)
      simp only [Modrm.to_byte, encoding_for_addressing_mode,
        RegisterOrMemory.carried_bytes, Modrm.try_from_byte,
        RegisterOrMemory.try_from_modrm, hb.1, hb.2.1, hb.2.2,
        register_try_from_encoding, AddressingMode.try_from_low_bits, it_read_u8]
  | DisplacementWord am d =>
    cases am with
    | BxSi =>
      have hb := compose_bits 2 (by norm_num) (encoding_for_register reg) he 0 (by norm_num)
      simp only [Modrm.to_byte, encoding_for_addressing_mode,
        RegisterOrMemory.carried_bytes, Modrm.try_from_byte,
        RegisterOrMemory.try_from_modrm, hb.1, hb.2.1, hb.2.2,
        register_try_from_encoding, AddressingMode.try_from_low_bits, it_read_u16,
        low_byte_high_bits_reassemble]
    | BxDi =>
      have hb := compose_bits 2 (by norm_num) (encoding_for_register reg) he 1 (by norm_num)
      simp only [Modrm.to_byte, encoding_for_addressing_mode,
        RegisterOrMemory.carried_bytes, Modrm.try_from_byte,
        RegisterOrMemory.try_from_modrm, hb.1, hb.2.1, hb.2.2,
        register_try_from_encoding, AddressingMode.try_from_low_bits, it_read_u16,
        low_byte_high_bits_reassemble]
    | BpSi =>
      have hb := compose_bits 2 (by norm_num) (encoding_for_register reg) he 2 (by norm_num)
      simp only [Modrm.to_byte, encoding_for_addressing_mode,
        RegisterOrMemory.carried_bytes, Modrm.try_from_byte,
        RegisterOrMemory.try_from_modrm, hb.1, hb.2.1, hb.2.2,
        register_try_from_encoding, AddressingMode.try_from_low_bits, it_read_u16,
        low_byte_high_bits_reassemble]
    | BpDi =>
      have hb := compose_bits 2 (by norm_num) (encoding_for_register reg) he 3 (by norm_num)
      simp only [Modrm.to_byte, encoding_for_addressing_mode,
        RegisterOrMemory.carried_bytes, Modrm.try_from_byte,
        RegisterOrMemory.try_from_modrm, hb.1, hb.2.1, hb.2.2,
        register_try_from_encoding, AddressingMode.try_from_low_bits, it_read_u16,
        low_byte_high_bits_reassemble]
    | Si =>
      have hb := compose_bits 2 (by norm_num) (encoding_for_register reg) he 4 (by norm_num)
      simp only [Modrm.to_byte, encoding_for_addressing_mode,
        RegisterOrMemory.carried_bytes, Modrm.try_from_byte,
        RegisterOrMemory.try_from_modrm, hb.1, hb.2.1, hb.2.2,
        register_try_from_encoding, AddressingMode.try_from_low_bits, it_read_u16,
        low_byte_high_bits_reassemble]
    | Di =>
      have hb := compose_bits 2 (by norm_num) (encoding_for_register reg) he 5 (by norm_num)
      simp only [Modrm.to_byte, encoding_for_addressing_mode,
        RegisterOrMemory.carried_bytes, Modrm.try_from_byte,
        RegisterOrMemory.try_from_modrm, hb.1, hb.2.1, hb.2.2,
        register_try_from_encoding, AddressingMode.try_from_low_bits, it_read_u16,
        low_byte_high_bits_reassemble]
    | Bp =>
      have hb := compose_bits 2 (by norm_num) (encoding_for_register reg) he 6 (by norm_num)
      simp only [Modrm.to_byte, encoding_for_addressing_mode,
        RegisterOrMemory.carried_bytes, Modrm.try_from_byte,
        RegisterOrMemory.try_from_modrm, hb.1, hb.2.1, hb.2.2,
        register_try_from_encoding, AddressingMode.try_from_low_bits, it_read_u16,
        low_byte_high_bits_reassemble]
    | Bx =>
      have hb := compose_bits 2 (by norm_num) (encoding_for_register reg) he 7 (by norm_num)
      simp only [Modrm.to_byte, encoding_for_addressing_mode,
        RegisterOrMemory.carried_bytes, Modrm.try_from_byte,
        RegisterOrMemory.try_from_modrm, hb.1, hb.2.1, hb.2.2,
        register_try_from_encoding, AddressingMode.try_from_low_bits, it_read_u16,
        low_byte_high_bits_reassemble]
  | Register r2 =>
    cases r2 with
    | AlAx =>
      have hc : encoding_for_register .AlAx = 0 := rfl
      have hr2 : Register.try_from_low_bits 0 = .ok .AlAx := rfl
      have hb := compose_bits 3 (by norm_num) (encoding_for_register reg) he 0 (by norm_num)
      simp only [Modrm.to_byte, encoding_for_addressing_mode,
        RegisterOrMemory.carried_bytes, Modrm.try_from_byte,
        RegisterOrMemory.try_from_modrm, hb.1, hb.2.1, hb.2.2,
        register_try_from_encoding, AddressingMode.try_from_low_bits, hc, hr2]
    | ClCx =>
      have hc : encoding_for_register .ClCx = 1 := rfl
      have hr2 : Register.try_from_low_bits 1 = .ok .ClCx := rfl
      have hb := compose_bits 3 (by norm_num) (encoding_for_register reg) he 1 (by norm_num)
      simp only [Modrm.to_byte, encoding_for_addressing_mode,
        RegisterOrMemory.carried_bytes, Modrm.try_from_byte,
        RegisterOrMemory.try_from_modrm, hb.1, hb.2.1, hb.2.2,
        register_try_from_encoding, AddressingMode.try_from_low_bits, hc, hr2]
    | DlDx =>
      have hc : encoding_for_register .DlDx = 2 := rfl
      have hr2 : Register.try_from_low_bits 2 = .ok .DlDx := rfl
      have hb := compose_bits 3 (by norm_num) (encoding_for_register reg) he 2 (by norm_num)
      simp only [Modrm.to_byte, encoding_for_addressing_mode,
        RegisterOrMemory.carried_bytes, Modrm.try_from_byte,
        RegisterOrMemory.try_from_modrm, hb.1, hb.2.1, hb.2.2,
        register_try_from_encoding, AddressingMode.try_from_low_bits, hc, hr2]
    | BlBx =>
      have hc : encoding_for_register .BlBx = 3 := rfl
      have hr2 : Register.try_from_low_bits 3 = .ok .BlBx := rfl
      have hb := compose_bits 3 (by norm_num) (encoding_for_register reg) he 3 (by norm_num)
      simp only [Modrm.to_byte, encoding_for_addressing_mode,
        RegisterOrMemory.carried_bytes, Modrm.try_from_byte,
        RegisterOrMemory.try_from_modrm, hb.1, hb.2.1, hb.2.2,
        register_try_from_encoding, AddressingMode.try_from_low_bits, hc, hr2]
    | AhSp =>
      have hc : encoding_for_register .AhSp = 4 := rfl
      have hr2 : Register.try_from_low_bits 4 = .ok .AhSp := rfl
      have hb := compose_bits 3 (by norm_num) (encoding_for_register reg) he 4 (by norm_num)
      simp only [Modrm.to_byte, encoding_for_addressing_mode,
        RegisterOrMemory.carried_bytes, Modrm.try_from_byte,
        RegisterOrMemory.try_from_modrm, hb.1, hb.2.1, hb.2.2,
        register_try_from_encoding, AddressingMode.try_from_low_bits, hc, hr2]
    | ChBp =>
      have hc : encoding_for_register .ChBp = 5 := rfl
      have hr2 : Register.try_from_low_bits 5 = .ok .ChBp := rfl
      have hb := compose_bits 3 (by norm_num) (encoding_for_register reg) he 5 (by norm_num)
      simp only [Modrm.to_byte, encoding_for_addressing_mode,
        RegisterOrMemory.carried_bytes, Modrm.try_from_byte,
        RegisterOrMemory.try_from_modrm, hb.1, hb.2.1, hb.2.2,
        register_try_from_encoding, AddressingMode.try_from_low_bits, hc, hr2]
    | DhSi =>
      have hc : encoding_for_register .DhSi = 6 := rfl
      have hr2 : Register.try_from_low_bits 6 = .ok .DhSi := rfl
      have hb := compose_bits 3 (by norm_num) (encoding_for_register reg) he 6 (by norm_num)
      simp only [Modrm.to_byte, encoding_for_addressing_mode,
        RegisterOrMemory.carried_bytes, Modrm.try_from_byte,
        RegisterOrMemory.try_from_modrm, hb.1, hb.2.1, hb.2.2,
        register_try_from_encoding, AddressingMode.try_from_low_bits, hc, hr2]
    | BhDi =>
      have hc : encoding_for_register .BhDi = 7 := rfl
      have hr2 : Register.try_from_low_bits 7 = .ok .BhDi := rfl
      have hb := compose_bits 3 (by norm_num) (encoding_for_register reg) he 7 (by norm_num)
      simp only [Modrm.to_byte, encoding_for_addressing_mode,
        RegisterOrMemory.carried_bytes, Modrm.try_from_byte,
        RegisterOrMemory.try_from_modrm, hb.1, hb.2.1, hb.2.2,
        register_try_from_encoding, AddressingMode.try_from_low_bits, hc, hr2]

/-- C4 (witness): the round-trip at a concrete `Modrm` value with a one-byte
displacement. -/
theorem c4_witness :
    (RegisterOrMemory.DisplacementByte .BxDi 0 ≠ RegisterOrMemory.Indirect .Bp) ∧
    Modrm.try_from_byte (Modrm.to_byte ⟨.BlBx, .DisplacementByte .BxDi 0⟩)
      ((RegisterOrMemory.DisplacementByte .BxDi 0).carried_bytes) =
      (.ok ⟨.BlBx, .DisplacementByte .BxDi 0⟩, []) :=
  ⟨by decide, c4_modrm_roundtrip ⟨.BlBx, .DisplacementByte .BxDi 0⟩ (by decide)⟩

/-- Every bit below 16 of the constant 0xFFFF is set, and none above. -/
theorem testBit_ffff (k : Nat) : Nat.testBit 0xFFFF k = decide (k < 16) := by
  rw [show (0xFFFF : Nat) = 2 ^ 16 - 1 from rfl, Nat.testBit_two_pow_sub_one]

/-- Setting a single-bit flag writes exactly that bit. -/
theorem flags_set_testBit_self (f j : Nat) (b : Bool) (hj : j < 16) :
    (flags_set f (2 ^ j) b).testBit j = b := by
  unfold flags_set
  cases b with
  | true => simp [Nat.testBit_or, Nat.testBit_two_pow]
  | false =>
    rw [if_neg (by simp)]
    simp [Nat.testBit_and, Nat.testBit_xor, testBit_ffff, Nat.testBit_two_pow, hj]

/-- Setting a single-bit flag leaves every other bit below 16 unchanged. -/
theorem flags_set_testBit_other_lt (f j : Nat) (b : Bool) (i : Nat)
    (hi : i < 16) (hj : j < 16) (hne : i ≠ j) :
    (flags_set f (2 ^ j) b).testBit i = f.testBit i := by
  unfold flags_set
  cases b with
  | true => simp [Nat.testBit_or, Nat.testBit_two_pow_of_ne hne.symm]
  | false =>
    rw [if_neg (by simp)]
    simp [Nat.testBit_and, Nat.testBit_xor, testBit_ffff, hi,
      Nat.testBit_two_pow_of_ne hne.symm]

/-- Setting a single-bit flag on a 16-bit flags word leaves every bit at
position 16 and above unchanged (both are zero). -/
theorem flags_set_testBit_ge (f j : Nat) (b : Bool) (i : Nat)
    (hf : f < 65536) (hj : j < 16) (hi : 16 ≤ i) :
    (flags_set f (2 ^ j) b).testBit i = f.testBit i := by
  have hpow : (65536 : Nat) ≤ 2 ^ i := by
    calc (65536 : Nat) = 2 ^ 16 := rfl
    _ ≤ 2 ^ i := Nat.pow_le_pow_right (by norm_num) hi
  have hfi : f.testBit i = false :=
    Nat.testBit_lt_two_pow (lt_of_lt_of_le hf hpow)
  unfold flags_set
  cases b with
  | true =>
    simp [Nat.testBit_or, hfi, Nat.testBit_two_pow_of_ne (by omega : j ≠ i)]
  | false =>
    rw [if_neg (by simp)]
    simp [Nat.testBit_and, hfi]

/-- A 16-bit flags word stays 16-bit across `flags_set` with a 16-bit mask. -/
theorem flags_set_lt (f m : Nat) (b : Bool) (hf : f < 65536) (hm : m < 65536) :
    flags_set f m b < 65536 := by
  unfold flags_set
  cases b with
  | true => exact Nat.or_lt_two_pow (show f < 2 ^ 16 from hf) (show m < 2 ^ 16 from hm)
  | false =>
    rw [if_neg (by simp)]
    exact lt_of_le_of_lt Nat.and_le_left hf

set_option maxRecDepth 1000000 in
/-- The 256-entry parity table holds 1 at index i exactly when the number of
set bits of i is even. -/
theorem parity_table_matches_popcount :
    ∀ i < 256, (parity_table_at i = 1 ↔ bit_count8 i % 2 = 0) := by
  decide

/-- C7: the flag writers set ZERO (bit 6) exactly when the result is zero,
SIGN (bit 7) exactly from the most significant bit of the result (bit 7 of a
byte result, bit 15 of a word result), and PARITY (bit 2) exactly when the
low 8 bits of the result contain an even number of set bits; equivalently
the 256-entry PARITY_TABLE holds 1 at index i iff i has an even number of
set bits. -/
theorem c7_flag_semantics :
    (∀ i, i < 256 → (parity_table_at i = 1 ↔ bit_count8 i % 2 = 0)) ∧
    (∀ flags result, result < 256 →
      ((flags_from_byte_result flags result).testBit 6 = true ↔ result = 0) ∧
      (flags_from_byte_result flags result).testBit 7 = result.testBit 7 ∧
      ((flags_from_byte_result flags result).testBit 2 = true ↔
        bit_count8 result % 2 = 0)) ∧
    (∀ flags result, result < 65536 →
      ((flags_from_word_result flags result).testBit 6 = true ↔ result = 0) ∧
      (flags_from_word_result flags result).testBit 7 = result.testBit 15 ∧
      ((flags_from_word_result flags result).testBit 2 = true ↔
        bit_count8 (result &&& 0xFF) % 2 = 0)) := by
  refine ⟨parity_table_matches_popcount, fun flags result hr => ?_,
    fun flags result hr => ?_⟩ <;>
    simp only [flags_from_byte_result, flags_from_word_result] <;>
    rw [show ZERO = 2 ^ 6 from rfl, show SIGN = 2 ^ 7 from rfl,
      show PARITY = 2 ^ 2 from rfl]
  · refine ⟨?_, ?_, ?_⟩
    · rw [flags_set_testBit_other_lt _ 2 _ 6 (by norm_num) (by norm_num) (by norm_num),
        flags_set_testBit_other_lt _ 7 _ 6 (by norm_num) (by norm_num) (by norm_num),
        flags_set_testBit_self _ 6 _ (by norm_num)]
      simp
    · rw [flags_set_testBit_other_lt _ 2 _ 7 (by norm_num) (by norm_num) (by norm_num),
        flags_set_testBit_self _ 7 _ (by norm_num)]
      rfl
    · rw [flags_set_testBit_self _ 2 _ (by norm_num)]
      simpa using parity_table_matches_popcount result hr
  · refine ⟨?_, ?_, ?_⟩
    · rw [flags_set_testBit_other_lt _ 2 _ 6 (by norm_num) (by norm_num) (by norm_num),
        flags_set_testBit_other_lt _ 7 _ 6 (by norm_num) (by norm_num) (by norm_num),
        flags_set_testBit_self _ 6 _ (by norm_num)]
      simp
    · rw [flags_set_testBit_other_lt _ 2 _ 7 (by norm_num) (by norm_num) (by norm_num),
        flags_set_testBit_self _ 7 _ (by norm_num)]
      rfl
    · rw [flags_set_testBit_self _ 2 _ (by norm_num)]
      have hand : result &&& 0xFF < 256 :=
        lt_of_le_of_lt Nat.and_le_right (by norm_num)
      simpa using parity_table_matches_popcount (result &&& 0xFF) hand

/-- C7 (witness): table entry 3 (two set bits, even) and the SIGN bit of a
byte result 0x80 on an all-ones flags word. -/
theorem c7_witness :
    (parity_table_at 3 = 1 ↔ bit_count8 3 % 2 = 0) ∧
    (flags_from_byte_result 0xFFFF 0x80).testBit 7 = Nat.testBit 0x80 7 :=
  ⟨c7_flag_semantics.1 3 (by norm_num),
   (c7_flag_semantics.2.1 0xFFFF 0x80 (by norm_num)).2.1⟩

/-- C8: the flag writers modify only the ZERO (bit 6), SIGN (bit 7) and
PARITY (bit 2) bits: every other bit of a 16-bit flags word — CARRY (0),
AUX_CARRY (4), OVERFLOW (11), DIRECTION (10), INTERRUPT (9), TRAP (8) and
all undefined bits — is unchanged by `flags_from_byte_result` and
`flags_from_word_result`. -/
theorem c8_flags_frame :
    ∀ flags result i, flags < 65536 → i ≠ 2 → i ≠ 6 → i ≠ 7 →
      (flags_from_byte_result flags result).testBit i = flags.testBit i ∧
      (flags_from_word_result flags result).testBit i = flags.testBit i := by
  intro flags result i hf h2 h6 h7
  have l1 : flags_set flags (2 ^ 6) (result == 0) < 65536 :=
    flags_set_lt _ _ _ hf (by norm_num)
  have l2b : flags_set (flags_set flags (2 ^ 6) (result == 0)) (2 ^ 7)
      (most_significant_bit_u8 result) < 65536 :=
    flags_set_lt _ _ _ l1 (by norm_num)
  have l2w : flags_set (flags_set flags (2 ^ 6) (result == 0)) (2 ^ 7)
      (most_significant_bit_u16 result) < 65536 :=
    flags_set_lt _ _ _ l1 (by norm_num)
  constructor <;>
    simp only [flags_from_byte_result, flags_from_word_result] <;>
    rw [show ZERO = 2 ^ 6 from rfl, show SIGN = 2 ^ 7 from rfl,
      show PARITY = 2 ^ 2 from rfl]
  · by_cases hi : i < 16
    · rw [flags_set_testBit_other_lt _ 2 _ i hi (by norm_num) h2,
        flags_set_testBit_other_lt _ 7 _ i hi (by norm_num) h7,
        flags_set_testBit_other_lt _ 6 _ i hi (by norm_num) h6]
    · have hi16 : 16 ≤ i := Nat.le_of_not_lt hi
      rw [flags_set_testBit_ge _ 2 _ i l2b (by norm_num) hi16,
        flags_set_testBit_ge _ 7 _ i l1 (by norm_num) hi16,
        flags_set_testBit_ge _ 6 _ i hf (by norm_num) hi16]
  · by_cases hi : i < 16
    · rw [flags_set_testBit_other_lt _ 2 _ i hi (by norm_num) h2,
        flags_set_testBit_other_lt _ 7 _ i hi (by norm_num) h7,
        flags_set_testBit_other_lt _ 6 _ i hi (by norm_num) h6]
    · have hi16 : 16 ≤ i := Nat.le_of_not_lt hi
      rw [flags_set_testBit_ge _ 2 _ i l2w (by norm_num) hi16,
        flags_set_testBit_ge _ 7 _ i l1 (by norm_num) hi16,
        flags_set_testBit_ge _ 6 _ i hf (by norm_num) hi16]

/-- C8 (witness): the CARRY bit (bit 0) of an all-ones flags word survives
both flag writers at result 0x80. -/
theorem c8_witness :
    (flags_from_byte_result 0xFFFF 0x80).testBit 0 = Nat.testBit 0xFFFF 0 ∧
    (flags_from_word_result 0xFFFF 0x80).testBit 0 = Nat.testBit 0xFFFF 0 :=
  c8_flags_frame 0xFFFF 0x80 0 (by norm_num) (by decide) (by decide) (by decide)
